import Mathlib

set_option autoImplicit false

/-!
Verification development for the api-lembreto reminder API.

The embedding models, from the source:
* the JavaScript `Date` arithmetic used by the reminder list route
  (`src/routes/lembretes.js`, GET handler) — proleptic Gregorian calendar,
  minute granularity, with JS day/month overflow normalization;
* the recurrence resolver (`proxima_execucao` computation);
* the create/update validation of `src/routes/lembretes.js`;
* the tag-association replace operation and the notification insert with
  its `trg_after_notificacao_insert` trigger (`sql/banco_completo.sql`);
* the phone-number cleaning of `src/routes/verificacao.js`.
-/

/-! ## Calendar arithmetic (JS `Date` semantics, minute granularity) -/

/-- Gregorian leap-year rule, as used by the JS `Date` object. -/
def isLeap (y : Nat) : Bool :=
  (y % 4 == 0 && y % 100 != 0) || y % 400 == 0

/-- Number of days of month `m` (0-based, JS convention) of year `y`.
Months outside 0..11 never reach this function normalized; the default
arm returns 31. -/
def daysInMonth (y m : Nat) : Nat :=
  if m = 1 then (if isLeap y then 29 else 28)
  else if m = 3 then 30
  else if m = 5 then 30
  else if m = 8 then 30
  else if m = 10 then 30
  else 31

def daysInYear (y : Nat) : Nat := if isLeap y then 366 else 365

/-- Days from 1970-01-01 to Jan 1 of year `1970 + k`. -/
def daysBeforeYearAux : Nat → Nat
  | 0 => 0
  | k + 1 => daysBeforeYearAux k + daysInYear (1970 + k)

def daysBeforeYear (y : Nat) : Nat := daysBeforeYearAux (y - 1970)

/-- Days from Jan 1 to the first day of month `m` (0-based) of year `y`. -/
def daysBeforeMonth (y : Nat) : Nat → Nat
  | 0 => 0
  | m + 1 => daysBeforeMonth y m + daysInMonth y m

/-- Day number (days since the epoch 1970-01-01) of the civil date
`(y, m, d)` with `m` 0-based and `d` 1-based. -/
def toDays (y m d : Nat) : Nat :=
  daysBeforeYear y + daysBeforeMonth y m + (d - 1)

/-- A JS `Date` value at minute granularity: civil fields plus
minute-of-day.  The route never reads seconds or milliseconds. -/
structure JSDate where
  year : Nat
  month : Nat
  day : Nat
  minute : Nat
deriving DecidableEq, Repr

/-- Epoch minutes; JS `Date` comparison (`<`) compares epoch time. -/
def JSDate.toMin (p : JSDate) : Nat :=
  toDays p.year p.month p.day * 1440 + p.minute

/-- JS `getDay()`: weekday, 0 = Sunday.  1970-01-01 was a Thursday (4). -/
def JSDate.getDay (p : JSDate) : Nat :=
  (toDays p.year p.month p.day + 4) % 7

/-- Day-overflow normalization of JS `Date` construction: while the day
exceeds the month length, move to the next month.  `fuel`-structured so
that the definition reduces by `rfl`/`decide`; callers pass `fuel = d`,
which is always sufficient since every step removes at least 28 days. -/
def normDayAux : Nat → Nat → Nat → Nat → Nat × Nat × Nat
  | 0, y, m, d => (y, m, d)
  | fuel + 1, y, m, d =>
    if daysInMonth y m < d then
      normDayAux fuel (if m = 11 then y + 1 else y) ((m + 1) % 12) (d - daysInMonth y m)
    else (y, m, d)

/-- Day-borrow normalization for nonpositive day values (JS `Date`
accepts day 0 or negative days, walking into earlier months). -/
def borrowDayAux : Nat → Nat → Nat → Int → Nat × Nat × Nat
  | 0, y, m, d => (y, m, d.toNat)
  | fuel + 1, y, m, d =>
    if d < 1 then
      let y2 := if m = 0 then y - 1 else y
      let m2 := if m = 0 then 11 else m - 1
      borrowDayAux fuel y2 m2 (d + daysInMonth y2 m2)
    else (y, m, d.toNat)

/-- `new Date(y, m, d)` with a time-of-day: normalizes month overflow
(`m ≥ 12` rolls into later years) and day overflow/underflow exactly as
the JS constructor does. -/
def mkDate (y m : Nat) (d : Int) (minute : Nat) : JSDate :=
  let y1 := y + m / 12
  let m1 := m % 12
  let r :=
    if 1 ≤ d then normDayAux d.toNat y1 m1 d.toNat
    else borrowDayAux (d.natAbs + 2) y1 m1 d
  ⟨r.1, r.2.1, r.2.2, minute⟩

/-- JS `setDate(getDate() + k)`. -/
def JSDate.addDays (p : JSDate) (k : Nat) : JSDate :=
  mkDate p.year p.month ((p.day : Int) + k) p.minute

/-- The civil fields are in range and the year is not before the epoch. -/
def ValidDate (p : JSDate) : Prop :=
  p.month < 12 ∧ 1 ≤ p.day ∧ p.day ≤ daysInMonth p.year p.month ∧ 1970 ≤ p.year

instance (p : JSDate) : Decidable (ValidDate p) := by
  unfold ValidDate; infer_instance

/-! ## Reminder rows and the recurrence resolver (GET /lembretes) -/

/-- The `diasSemana` lookup object of the Semanal branch
(`lembretes.js`): weekday name to JS weekday number; any other string
(or a missing field) yields `undefined`, modeled as `none`. -/
def diasSemana (s : String) : Option Nat :=
  if s = "Domingo" then some 0
  else if s = "Segunda" then some 1
  else if s = "Terça" then some 2
  else if s = "Quarta" then some 3
  else if s = "Quinta" then some 4
  else if s = "Sexta" then some 5
  else if s = "Sábado" then some 6
  else none

/-- The `meses` lookup object of the Anual branch: month name to JS
month number (0-based). -/
def meses (s : String) : Option Nat :=
  if s = "Janeiro" then some 0
  else if s = "Fevereiro" then some 1
  else if s = "Março" then some 2
  else if s = "Abril" then some 3
  else if s = "Maio" then some 4
  else if s = "Junho" then some 5
  else if s = "Julho" then some 6
  else if s = "Agosto" then some 7
  else if s = "Setembro" then some 8
  else if s = "Outubro" then some 9
  else if s = "Novembro" then some 10
  else if s = "Dezembro" then some 11
  else none

/-- Lifecycle status of a reminder (`lembretes.status` enum). -/
inductive StatusLembrete
  | ativo
  | concluido
  | cancelado
deriving DecidableEq, Repr

/-- A row of the `lembretes` table (schema of `sql/banco_completo.sql`).
The TIME column `hora` ("HH:MM:SS") is represented by its (hour, minute)
pair, which is exactly what the route feeds to `setHours`; the DATETIME
column `data_hora` is represented by its `JSDate` value. -/
structure Lembrete where
  id : Nat
  titulo : String
  descricao : Option String := none
  tipo : String
  data_hora : Option JSDate := none
  recorrente : Bool := false
  frequencia : Option String := none
  status : StatusLembrete := .ativo
  usuario_id : Nat
  dia : Option Int := none
  hora : Option (Nat × Nat) := none
  data : Option String := none
  dia_semana : Option String := none
  mes : Option String := none
deriving DecidableEq, Repr

/-- The day-advancing `while` loop of the Semanal branch: advance one
day at a time until `getDay()` equals the stored weekday number.  The
JS loop has no bound; the model threads explicit fuel, and `none` means
the loop did not finish within the given fuel.  When the target is
`none` (invalid stored weekday) the condition `p.getDay() ===
diasSemana[dia_semana]` is never true, for any amount of fuel. -/
def semanalLoop : Nat → Option Nat → JSDate → Option JSDate
  | 0, _, _ => none
  | fuel + 1, target, p =>
    if some p.getDay = target then some p
    else semanalLoop fuel target (p.addDays 1)

/-- The `proxima_execucao` computation of GET /lembretes
(`lembretes.js`), branch for branch.  Result: `some (some d)` is a
resolved instant, `some none` is the JS `null`, and `none` means the
route does not produce a value for this row (the Semanal loop spinning
forever, or the Anual branch building an Invalid Date from an
unrecognized month name, which makes `toISOString()` throw). -/
def proximaExecucao (now : JSDate) (l : Lembrete) : Option (Option JSDate) :=
  if l.recorrente && l.hora.isSome then
    match l.hora with
    | none => some none
    | some (hh, mm) =>
      let hm := hh * 60 + mm
      match l.frequencia with
      | none => some none
      | some f =>
        if f = "Diária" then
          let p : JSDate := { now with minute := hm }
          some (some (if p.toMin < now.toMin then p.addDays 1 else p))
        else if f = "Semanal" then
          let p : JSDate := { now with minute := hm }
          (semanalLoop 7 (l.dia_semana.bind diasSemana) p).map some
        else if f = "Mensal" then
          let p := mkDate now.year now.month (l.dia.getD 0) hm
          some (some (if p.toMin < now.toMin
            then mkDate p.year (p.month + 1) (p.day : Int) hm
            else p))
        else if f = "Anual" then
          match l.mes.bind meses with
          | none => none
          | some mi =>
            let p := mkDate now.year mi (l.dia.getD 0) hm
            some (some (if p.toMin < now.toMin
              then mkDate (p.year + 1) p.month (p.day : Int) hm
              else p))
        else some none
  else
    match l.data_hora with
    | some d => some (some d)
    | none => some none

/-! ## Request bodies and validation (POST /lembretes, PUT /lembretes/:id) -/

/-- JS truthiness of an optional string field (absent, `null` and `""`
are falsy). -/
def truthyS (o : Option String) : Bool :=
  match o with
  | none => false
  | some s => s ≠ ""

/-- JS truthiness of an optional numeric field (absent, `null` and `0`
are falsy). -/
def truthyI (o : Option Int) : Bool :=
  match o with
  | none => false
  | some n => n ≠ 0

/-- JS truthiness of an optional boolean field. -/
def truthyB (o : Option Bool) : Bool :=
  match o with
  | none => false
  | some b => b

/-- JS truthiness of the `hora` field, whose "HH:mm" string is
represented by its (hour, minute) pair; a present nonempty string is
truthy. -/
def truthyHora (o : Option (Nat × Nat)) : Bool :=
  o.isSome

/-- A POST/PUT /lembretes request body.  As in the row type, the "HH:mm"
string `hora` is represented by its (hour, minute) pair and `data_hora`
by its datetime value; validation only tests these for truthiness. -/
structure LembreteBody where
  titulo : Option String := none
  descricao : Option String := none
  tipo : Option String := none
  data_hora : Option JSDate := none
  recorrente : Option Bool := none
  frequencia : Option String := none
  dia : Option Int := none
  hora : Option (Nat × Nat) := none
  data : Option String := none
  dia_semana : Option String := none
  mes : Option String := none
deriving DecidableEq, Repr

def tiposValidos : List String := ["Contas a Pagar", "Saúde", "Normal"]

def frequenciasValidas : List String := ["Diária", "Semanal", "Mensal", "Anual"]

def diasValidos : List String :=
  ["Domingo", "Segunda", "Terça", "Quarta", "Quinta", "Sexta", "Sábado"]

def mesesValidos : List String :=
  ["Janeiro", "Fevereiro", "Março", "Abril", "Maio", "Junho", "Julho",
   "Agosto", "Setembro", "Outubro", "Novembro", "Dezembro"]

/-- A thrown `AppError` (statusCode, message). -/
structure AppError where
  statusCode : Nat
  message : String
deriving DecidableEq, Repr

/-- The validation sequence of POST /lembretes (`lembretes.js`,
lines 239-321): required fields, tipo enum, then — only when both
`recorrente` and `frequencia` are truthy — frequencia enum and the
per-frequency switch.  Returns the first error thrown, or `none` when
the request reaches the INSERT. -/
def validarCriacao (b : LembreteBody) : Option AppError :=
  if !(truthyS b.titulo) || !(truthyS b.tipo) then
    some ⟨400, "Título e tipo são obrigatórios"⟩
  else if !(tiposValidos.contains (b.tipo.getD "")) then
    some ⟨400, "Tipo inválido"⟩
  else if truthyB b.recorrente && truthyS b.frequencia then
    let f := b.frequencia.getD ""
    if !(frequenciasValidas.contains f) then
      some ⟨400, "Frequência inválida"⟩
    else if f = "Mensal" then
      if !(truthyI b.dia) || !(truthyHora b.hora) then
        some ⟨400, "Para lembretes mensais, dia e hora são obrigatórios"⟩
      else if b.dia.getD 0 < 1 || 31 < b.dia.getD 0 then
        some ⟨400, "Dia deve estar entre 1 e 31"⟩
      else none
    else if f = "Semanal" then
      if !(truthyS b.dia_semana) || !(truthyHora b.hora) then
        some ⟨400, "Para lembretes semanais, dia da semana e hora são obrigatórios"⟩
      else if !(diasValidos.contains (b.dia_semana.getD "")) then
        some ⟨400, "Dia da semana inválido"⟩
      else none
    else if f = "Anual" then
      if !(truthyI b.dia) || !(truthyS b.mes) || !(truthyHora b.hora) then
        some ⟨400, "Para lembretes anuais, dia, mês e hora são obrigatórios"⟩
      else if !(mesesValidos.contains (b.mes.getD "")) then
        some ⟨400, "Mês inválido"⟩
      else none
    else none
  else none

/-- The validation block of PUT /lembretes/:id (`lembretes.js`, lines
635-666): only the per-frequency presence checks; no required-field,
enum-membership or range check. -/
def validarAtualizacao (b : LembreteBody) : Option AppError :=
  if truthyB b.recorrente && truthyS b.frequencia then
    let f := b.frequencia.getD ""
    if f = "Mensal" then
      if !(truthyI b.dia) || !(truthyHora b.hora) then
        some ⟨400, "Para lembretes mensais, dia e hora são obrigatórios"⟩
      else none
    else if f = "Semanal" then
      if !(truthyS b.dia_semana) || !(truthyHora b.hora) then
        some ⟨400, "Para lembretes semanais, dia da semana e hora são obrigatórios"⟩
      else none
    else if f = "Anual" then
      if !(truthyI b.dia) || !(truthyS b.mes) || !(truthyHora b.hora) then
        some ⟨400, "Para lembretes anuais, dia, mês e hora são obrigatórios"⟩
      else none
    else none
  else none

/-! ## Persistence state, tag association, notifications -/

/-- A row of the `tags` table. -/
structure Tag where
  id : Nat
  nome : String
  cor : String := "#FFFFFF"
  icone : Option String := none
  usuario_id : Nat
deriving DecidableEq, Repr

/-- Outcome of a notification (`notificacoes.status` enum,
DEFAULT 'Sucesso'). -/
inductive StatusNotificacao
  | sucesso
  | falha
deriving DecidableEq, Repr

/-- A row of the `notificacoes` table. -/
structure Notificacao where
  id : Nat
  lembrete_id : Nat
  data_envio : String
  tipo_envio : String
  status : StatusNotificacao := .sucesso
  mensagem : Option String := none
deriving DecidableEq, Repr

/-- The persistent state touched by the modeled routes: the four tables,
with `lembretes_tags` as (lembrete_id, tag_id) pairs. -/
structure DBState where
  lembretes : List Lembrete := []
  tags : List Tag := []
  lembretesTags : List (Nat × Nat) := []
  notificacoes : List Notificacao := []
deriving DecidableEq, Repr

/-- POST /tags/lembrete/:lembreteId (`notificacoes.js` concatenated tags
route, lines 537-621, transactional revision).  The statements run on
one connection inside BEGIN/COMMIT; any thrown error rolls back, so an
error result leaves the state exactly as given.  Steps: non-empty
`tagIds` check, reminder ownership check, tag ownership count check,
DELETE of the old links, one INSERT per tag id. -/
def associarTags (db : DBState) (userId lembreteId : Nat) (tagIds : List Nat) :
    Except AppError Unit × DBState :=
  if tagIds.isEmpty then
    (.error ⟨400, "Lista de IDs de tags é obrigatória"⟩, db)
  else if (db.lembretes.filter
      (fun l => l.id == lembreteId && l.usuario_id == userId)).length == 0 then
    (.error ⟨404, "Lembrete não encontrado"⟩, db)
  else
    let tagsFound := db.tags.filter (fun t => tagIds.contains t.id && t.usuario_id == userId)
    if tagsFound.length ≠ tagIds.length then
      (.error ⟨400, "Uma ou mais tags não encontradas ou não pertencem ao usuário"⟩, db)
    else
      let afterDelete := db.lembretesTags.filter (fun lt => lt.1 ≠ lembreteId)
      (.ok (), { db with lembretesTags := afterDelete ++ tagIds.map (fun t => (lembreteId, t)) })

/-- The `trg_after_notificacao_insert` trigger
(`sql/banco_completo.sql`): AFTER INSERT, when NEW.status = 'Sucesso',
UPDATE lembretes SET status = 'Concluído' WHERE id = NEW.lembrete_id. -/
def trgAfterNotificacaoInsert (db : DBState) (n : Notificacao) : DBState :=
  if n.status = .sucesso then
    { db with lembretes :=
        db.lembretes.map (fun l =>
          if l.id = n.lembrete_id then { l with status := .concluido } else l) }
  else db

/-- An INSERT into `notificacoes` together with its AFTER INSERT
trigger; MySQL runs both inside the same atomic unit. -/
def insertNotificacao (db : DBState) (n : Notificacao) : DBState :=
  trgAfterNotificacaoInsert { db with notificacoes := db.notificacoes ++ [n] } n

/-- POST /notificacoes (`notificacoes.js`, lines 41-80): required-field
check, reminder ownership check, then the INSERT — which names no
`status` column, so the row takes the schema default 'Sucesso' and the
trigger always fires. -/
def criarNotificacao (db : DBState) (userId : Nat) (lembrete_id : Option Int)
    (tipo_envio data_envio mensagem : Option String) (newId : Nat) :
    Except AppError Nat × DBState :=
  if !(truthyI lembrete_id) || !(truthyS tipo_envio) || !(truthyS data_envio) then
    (.error ⟨400, "ID do lembrete, tipo de envio e data de envio são obrigatórios"⟩, db)
  else if (db.lembretes.filter
      (fun l => l.id == (lembrete_id.getD 0).toNat && l.usuario_id == userId)).length == 0 then
    (.error ⟨404, "Lembrete não encontrado"⟩, db)
  else
    (.ok newId, insertNotificacao db
      { id := newId, lembrete_id := (lembrete_id.getD 0).toNat,
        data_envio := data_envio.getD "", tipo_envio := tipo_envio.getD "",
        mensagem := mensagem })

/-- POST /lembretes (`lembretes.js`, lines 207-380): run the validation
sequence, then INSERT the row with every falsy value replaced by NULL
(`x || null`) and `recorrente || false`. -/
def criarLembrete (db : DBState) (userId : Nat) (b : LembreteBody) (newId : Nat) :
    Except AppError Nat × DBState :=
  match validarCriacao b with
  | some e => (.error e, db)
  | none =>
    let row : Lembrete :=
      { id := newId
        titulo := b.titulo.getD ""
        descricao := if truthyS b.descricao then b.descricao else none
        tipo := b.tipo.getD ""
        data_hora := b.data_hora
        recorrente := truthyB b.recorrente
        frequencia := if truthyS b.frequencia then b.frequencia else none
        status := .ativo
        usuario_id := userId
        dia := if truthyI b.dia then b.dia else none
        hora := b.hora
        data := if truthyS b.data then b.data else none
        dia_semana := if truthyS b.dia_semana then b.dia_semana else none
        mes := if truthyS b.mes then b.mes else none }
    (.ok newId, { db with lembretes := db.lembretes ++ [row] })

/-! ## Phone-number handling before the Messaging Gateway -/

/-- `numero.replace(/\D/g, '')` of POST /verificacao/whatsapp
(`verificacao.js`, line 76): every non-digit character is replaced by
the empty string. -/
def limparNumero (s : String) : String :=
  String.mk (s.data.foldr (fun c acc => if c.isDigit then c :: acc else acc) [])

/-- The list handed to `WhatsAppService.verificarNumeros`, which posts
it verbatim as the gateway request body (`whatsappService.js`). -/
def numerosLimpos (numeros : List String) : List String :=
  numeros.map limparNumero

/-- Modelled from the spec (§6 Messaging Gateway contract), for
comparison with the code: "Phone numbers are normalized by stripping
all non-digit characters and prefixing the country code if absent
before calling the gateway."  The country code of every phone in the
system's examples is Brazil's 55. -/
def normalizarSegundoSpec (s : String) : String :=
  let d := limparNumero s
  if d.data.take 2 = ['5', '5'] then d else "55" ++ d

/-! ## Concrete instances used by counterexamples and witnesses -/

/-- A monthly reminder on day 20 at 10:00 (row as persisted). -/
def c5Lembrete : Lembrete :=
  { id := 42, titulo := "Pagar aluguel", tipo := "Contas a Pagar", recorrente := true,
    frequencia := some "Mensal", usuario_id := 12, dia := some 20, hora := some (10, 0) }

/-- Sunday 2025-01-05 at 11:00. -/
def c5Now : JSDate := ⟨2025, 0, 5, 660⟩

/-- A weekly reminder stored for Wednesday ("Quarta") at 14:30. -/
def c6Lembrete : Lembrete :=
  { id := 7, titulo := "Reunião de equipe", tipo := "Normal", recorrente := true,
    frequencia := some "Semanal", usuario_id := 12, dia_semana := some "Quarta",
    hora := some (14, 30) }

/-- A weekly reminder stored for Sunday ("Domingo") at 10:00. -/
def c7Lembrete : Lembrete :=
  { id := 8, titulo := "Ligar para casa", tipo := "Normal", recorrente := true,
    frequencia := some "Semanal", usuario_id := 12, dia_semana := some "Domingo",
    hora := some (10, 0) }

/-- A one-shot reminder with a stored (past) datetime. -/
def c8Lembrete : Lembrete :=
  { id := 9, titulo := "Dentista", tipo := "Saúde", usuario_id := 12,
    data_hora := some ⟨2024, 11, 25, 600⟩ }

/-- An update body whose `dia_semana` is not one of the seven weekday
names; the PUT validation only tests the field for presence. -/
def c10Body : LembreteBody :=
  { titulo := some "Reunião", tipo := some "Normal", recorrente := some true,
    frequencia := some "Semanal", dia_semana := some "Funday", hora := some (14, 30) }

/-- A create body with `recorrente` true and no `frequencia` at all. -/
def c3Body : LembreteBody :=
  { titulo := some "Academia", tipo := some "Normal", recorrente := some true }

/-- A create/update body with `dia` out of the 1..31 range. -/
def c4Body : LembreteBody :=
  { titulo := some "Pagar aluguel", tipo := some "Normal", recorrente := some true,
    frequencia := some "Mensal", dia := some 40, hora := some (10, 0) }

/-- A create/update body with `dia` missing for a monthly frequency. -/
def c4MissingBody : LembreteBody :=
  { titulo := some "Pagar aluguel", tipo := some "Normal", recorrente := some true,
    frequencia := some "Mensal", hora := some (10, 0) }

/-- A one-reminder, one-tag state of user 12 with one existing link. -/
def c1Db : DBState :=
  { lembretes := [{ id := 1, titulo := "Consulta médica", tipo := "Saúde", usuario_id := 12 }],
    tags := [{ id := 23, nome := "test1", cor := "#eab308", usuario_id := 12 }],
    lembretesTags := [(1, 23)] }

/-- A notification of outcome 'Sucesso' for reminder 1. -/
def c2Notificacao : Notificacao :=
  { id := 1, lembrete_id := 1, data_envio := "2024-12-25T10:00:00",
    tipo_envio := "WhatsApp" }

/-- The `telefone` value forwarded verbatim by
`WhatsAppService.enviarMensagem` (`whatsappService.js`, lines 10-26):
the request body field `phone` is exactly the argument; the service
applies no normalization at all. -/
def enviarMensagemPhone (telefone : String) : String :=
  telefone

/-- A monthly reminder on day 3 at 10:00 (used where the current
month's occurrence is already past). -/
def c5PastLembrete : Lembrete :=
  { id := 43, titulo := "Pagar internet", tipo := "Contas a Pagar", recorrente := true,
    frequencia := some "Mensal", usuario_id := 12, dia := some 3, hora := some (10, 0) }

/-- A persisted weekly reminder whose stored `dia_semana` is not a
weekday name (reachable through PUT, which does not check the enum). -/
def c10Lembrete : Lembrete :=
  { id := 10, titulo := "Reunião", tipo := "Normal", recorrente := true,
    frequencia := some "Semanal", usuario_id := 12, dia_semana := some "Funday",
    hora := some (14, 30) }

/-- A create body with `recorrente` true, frequency Diária and no
`hora`. -/
def c3DiariaBody : LembreteBody :=
  { titulo := some "Alongar", tipo := some "Normal", recorrente := some true,
    frequencia := some "Diária" }

/-- The state after POSTing a notification for reminder 1 of `c1Db`. -/
def c2Db2 : DBState :=
  (criarNotificacao c1Db 12 (some 1) (some "WhatsApp")
    (some "2024-12-25T10:00:00") none 5).2

/-! ## Calendar lemmas -/

theorem daysInMonth_ge (y m : Nat) : 28 ≤ daysInMonth y m := by
  unfold daysInMonth; split_ifs <;> omega

theorem daysBeforeMonth_twelve (y : Nat) : daysBeforeMonth y 12 = daysInYear y := by
  by_cases h : isLeap y <;>
    simp [daysBeforeMonth, daysInMonth, daysInYear, h]

theorem normDayAux_eq_self (fuel y m d : Nat) (h : d ≤ daysInMonth y m) :
    normDayAux fuel y m d = (y, m, d) := by
  cases fuel with
  | zero => rfl
  | succ k => simp [normDayAux, Nat.not_lt.mpr h]

theorem mkDate_coe_nat (y m d minute : Nat) (hd : 1 ≤ d) :
    mkDate y m (d : Int) minute =
      ⟨(normDayAux d (y + m / 12) (m % 12) d).1,
       (normDayAux d (y + m / 12) (m % 12) d).2.1,
       (normDayAux d (y + m / 12) (m % 12) d).2.2, minute⟩ := by
  unfold mkDate
  have h1 : (1 : Int) ≤ (d : Int) := by exact_mod_cast hd
  simp [h1, hd, Int.toNat_ofNat]

theorem mkDate_eq_self (y m d minute : Nat) (hm : m < 12) (hd1 : 1 ≤ d)
    (hd2 : d ≤ daysInMonth y m) :
    mkDate y m (d : Int) minute = ⟨y, m, d, minute⟩ := by
  rw [mkDate_coe_nat _ _ _ _ hd1]
  simp only [Nat.div_eq_of_lt hm, Nat.mod_eq_of_lt hm, Nat.add_zero]
  rw [normDayAux_eq_self _ _ _ _ hd2]

theorem addDays_one_eq (p : JSDate) (h : ValidDate p) :
    p.addDays 1 =
      if p.day < daysInMonth p.year p.month then
        { p with day := p.day + 1 }
      else if p.month = 11 then
        ⟨p.year + 1, 0, 1, p.minute⟩
      else
        ⟨p.year, p.month + 1, 1, p.minute⟩ := by
  obtain ⟨hm, hd1, hd2, hy⟩ := h
  unfold JSDate.addDays
  have harg : ((p.day : Int) + ((1 : Nat) : Int)) = ((p.day + 1 : Nat) : Int) := by
    push_cast; ring
  rw [harg]
  by_cases hlt : p.day < daysInMonth p.year p.month
  · rw [if_pos hlt, mkDate_eq_self _ _ _ _ hm (by omega) (by omega)]
  · rw [if_neg hlt]
    have hde : p.day = daysInMonth p.year p.month := by omega
    rw [mkDate_coe_nat _ _ _ _ (by omega)]
    simp only [Nat.div_eq_of_lt hm, Nat.mod_eq_of_lt hm, Nat.add_zero]
    have hstep : normDayAux (p.day + 1) p.year p.month (p.day + 1)
        = normDayAux p.day (if p.month = 11 then p.year + 1 else p.year)
            ((p.month + 1) % 12) 1 := by
      have hgt : daysInMonth p.year p.month < p.day + 1 := by omega
      simp [normDayAux, hgt, hde]
    rw [hstep, normDayAux_eq_self _ _ _ _ (by
      have := daysInMonth_ge (if p.month = 11 then p.year + 1 else p.year) ((p.month + 1) % 12)
      omega)]
    by_cases h11 : p.month = 11
    · simp [h11]
    · have hmod : (p.month + 1) % 12 = p.month + 1 := Nat.mod_eq_of_lt (by omega)
      simp [h11, hmod]

theorem daysBeforeYear_succ (y : Nat) (hy : 1970 ≤ y) :
    daysBeforeYear (y + 1) = daysBeforeYear y + daysInYear y := by
  unfold daysBeforeYear
  have h1 : y + 1 - 1970 = (y - 1970) + 1 := by omega
  rw [h1]
  show daysBeforeYearAux (y - 1970) + daysInYear (1970 + (y - 1970)) = _
  have h2 : 1970 + (y - 1970) = y := by omega
  rw [h2]

theorem toDays_addDays (p : JSDate) (h : ValidDate p) :
    toDays (p.addDays 1).year (p.addDays 1).month (p.addDays 1).day
      = toDays p.year p.month p.day + 1 := by
  have hv := h
  obtain ⟨hm, hd1, hd2, hy⟩ := hv
  rw [addDays_one_eq p h]
  by_cases hlt : p.day < daysInMonth p.year p.month
  · simp only [if_pos hlt]
    unfold toDays
    omega
  · rw [if_neg hlt]
    have hde : p.day = daysInMonth p.year p.month := by omega
    have hpos := daysInMonth_ge p.year p.month
    by_cases h11 : p.month = 11
    · simp only [if_pos h11]
      unfold toDays
      rw [daysBeforeYear_succ _ hy]
      have hdbm : daysBeforeMonth p.year 12 = daysInYear p.year :=
        daysBeforeMonth_twelve p.year
      have h12 : daysBeforeMonth p.year 12
          = daysBeforeMonth p.year 11 + daysInMonth p.year 11 := rfl
      have h0 : daysBeforeMonth (p.year + 1) 0 = 0 := rfl
      rw [h11] at hde hpos
      rw [h11, h0]
      omega
    · simp only [if_neg h11]
      unfold toDays
      have hstep : daysBeforeMonth p.year (p.month + 1)
          = daysBeforeMonth p.year p.month + daysInMonth p.year p.month := rfl
      omega

theorem validDate_addDays (p : JSDate) (h : ValidDate p) : ValidDate (p.addDays 1) := by
  have hv := h
  obtain ⟨hm, hd1, hd2, hy⟩ := hv
  rw [addDays_one_eq p h]
  unfold ValidDate
  by_cases hlt : p.day < daysInMonth p.year p.month
  · simp only [if_pos hlt]
    exact ⟨hm, by omega, by omega, hy⟩
  · rw [if_neg hlt]
    by_cases h11 : p.month = 11
    · simp only [if_pos h11]
      refine ⟨by omega, by omega, ?_, by omega⟩
      have := daysInMonth_ge (p.year + 1) 0
      omega
    · simp only [if_neg h11]
      refine ⟨by omega, by omega, ?_, by omega⟩
      have := daysInMonth_ge p.year (p.month + 1)
      omega

theorem getDay_lt (p : JSDate) : p.getDay < 7 :=
  Nat.mod_lt _ (by norm_num)

theorem getDay_addDays (p : JSDate) (h : ValidDate p) :
    (p.addDays 1).getDay = (p.getDay + 1) % 7 := by
  unfold JSDate.getDay
  rw [toDays_addDays p h]
  omega

theorem semanalLoop_reaches (fuel : Nat) :
    ∀ (p : JSDate) (t : Nat), t < 7 → ValidDate p →
      (t + 7 - p.getDay) % 7 < fuel →
      ∃ q, semanalLoop fuel (some t) p = some q ∧ q.getDay = t := by
  induction fuel with
  | zero => intro p t ht hv hf; omega
  | succ k ih =>
    intro p t ht hv hf
    by_cases heq : p.getDay = t
    · exact ⟨p, by simp [semanalLoop, heq], heq⟩
    · have hg := getDay_lt p
      have hstep : (t + 7 - (p.addDays 1).getDay) % 7 < k := by
        rw [getDay_addDays p hv]
        omega
      obtain ⟨q, hq, hqd⟩ := ih (p.addDays 1) t ht (validDate_addDays p hv) hstep
      refine ⟨q, ?_, hqd⟩
      simpa [semanalLoop, heq] using hq

/-! ## Further shared lemmas -/

theorem mkDate_next_month (y m d minute : Nat) (hm : m < 12) (hd1 : 1 ≤ d)
    (hd2 : d ≤ 28) :
    mkDate y (m + 1) (d : Int) minute
      = ⟨if m = 11 then y + 1 else y, (m + 1) % 12, d, minute⟩ := by
  by_cases h11 : m = 11
  · subst h11
    rw [mkDate_coe_nat _ _ _ _ hd1]
    norm_num
    rw [normDayAux_eq_self _ _ _ _ (by have := daysInMonth_ge (y + 1) 0; omega)]
    exact ⟨rfl, rfl, rfl⟩
  · have hm1 : m + 1 < 12 := by omega
    rw [mkDate_eq_self _ _ _ _ hm1 hd1
      (by have := daysInMonth_ge y (m + 1); omega)]
    simp [h11, Nat.mod_eq_of_lt hm1]

theorem semanalLoop_none (fuel : Nat) (p : JSDate) :
    semanalLoop fuel none p = none := by
  induction fuel generalizing p with
  | zero => rfl
  | succ k ih => simp [semanalLoop, ih]

theorem diasSemana_lt (s : String) (t : Nat) (h : diasSemana s = some t) : t < 7 := by
  unfold diasSemana at h
  split_ifs at h <;> simp_all <;> omega

theorem filter_tags_length_lt (tags : List Tag) (tagIds : List Nat) (userId t0 : Nat)
    (hnodup : (tags.map Tag.id).Nodup) (hmem : t0 ∈ tagIds)
    (hbad : ∀ tg ∈ tags, ¬(tg.id = t0 ∧ tg.usuario_id = userId)) :
    (tags.filter (fun t => tagIds.contains t.id && t.usuario_id == userId)).length
      < tagIds.length := by
  classical
  set found := tags.filter (fun t => tagIds.contains t.id && t.usuario_id == userId)
    with hfound
  have hsub : List.Sublist found tags := List.filter_sublist _
  have hnd : (found.map Tag.id).Nodup := List.Nodup.sublist (hsub.map Tag.id) hnodup
  have hsubset : ∀ x ∈ found.map Tag.id, x ∈ tagIds := by
    intro x hx
    obtain ⟨tg, htg, rfl⟩ := List.mem_map.mp hx
    have hcond := (List.mem_filter.mp htg).2
    simp at hcond
    exact hcond.1
  have hnotin : t0 ∉ found.map Tag.id := by
    intro hx
    obtain ⟨tg, htg, hid⟩ := List.mem_map.mp hx
    have hcond := (List.mem_filter.mp htg).2
    simp at hcond
    exact hbad tg (List.mem_filter.mp htg).1 ⟨hid, hcond.2⟩
  have hA : (found.map Tag.id).toFinset ⊆ tagIds.toFinset := by
    intro x hx
    rw [List.mem_toFinset] at hx ⊢
    exact hsubset x hx
  have hss : (found.map Tag.id).toFinset ⊂ tagIds.toFinset := by
    refine (Finset.ssubset_iff_of_subset hA).mpr ?_
    exact ⟨t0, List.mem_toFinset.mpr hmem, fun hc => hnotin (List.mem_toFinset.mp hc)⟩
  have hcard := Finset.card_lt_card hss
  have h1 : (found.map Tag.id).toFinset.card = found.length := by
    rw [List.toFinset_card_of_nodup hnd, List.length_map]
  have h2 : tagIds.toFinset.card ≤ tagIds.length := tagIds.toFinset_card_le
  omega

/-! ## Claim theorems -/

/-- Claim C1: for every call to the tag-association replace operation
whose `tagIds` input contains a tag id that does not exist or is not
owned by the caller (the owner of the addressed reminder), the call
fails entirely with a Validation error (400) and the stored state —
in particular the `lembretes_tags` rows of that reminder — is exactly
the state before the call; no link row is deleted or inserted.  The
uniqueness hypothesis is the primary key of `tags`. -/
theorem c1_tag_replace_atomico (db : DBState) (userId lembreteId t0 : Nat)
    (tagIds : List Nat)
    (hnodup : (db.tags.map Tag.id).Nodup)
    (hlemb : ∃ l ∈ db.lembretes, l.id = lembreteId ∧ l.usuario_id = userId)
    (hmem : t0 ∈ tagIds)
    (hbad : ∀ tg ∈ db.tags, ¬(tg.id = t0 ∧ tg.usuario_id = userId)) :
    associarTags db userId lembreteId tagIds
      = (.error ⟨400, "Uma ou mais tags não encontradas ou não pertencem ao usuário"⟩, db) := by
  obtain ⟨l0, hl0, hlid, hluid⟩ := hlemb
  have hie : tagIds.isEmpty = false := by
    cases tagIds with
    | nil => cases hmem
    | cons a as => rfl
  have hmemf : l0 ∈ db.lembretes.filter
      (fun l => l.id == lembreteId && l.usuario_id == userId) :=
    List.mem_filter.mpr ⟨hl0, by simp [hlid, hluid]⟩
  have hlen : (db.lembretes.filter
      (fun l => l.id == lembreteId && l.usuario_id == userId)).length ≠ 0 := by
    have := List.length_pos_of_mem hmemf
    omega
  have hlt := filter_tags_length_lt db.tags tagIds userId t0 hnodup hmem hbad
  unfold associarTags
  rw [hie]
  simp only [Bool.false_eq_true, if_false]
  rw [if_neg (by simpa using hlen)]
  rw [if_pos (by omega)]

/-- Witness for C1: user 12 owns reminder 1 and tag 23; the input
[23, 99] names the nonexistent tag 99, so the call returns the
Validation error and the state (with its existing link (1, 23)) is
unchanged. -/
theorem c1_tag_replace_atomico_witness :
    (99 : Nat) ∈ [23, 99] ∧
    associarTags c1Db 12 1 [23, 99]
      = (.error ⟨400, "Uma ou mais tags não encontradas ou não pertencem ao usuário"⟩,
         c1Db) :=
  ⟨by decide,
   c1_tag_replace_atomico c1Db 12 1 99 [23, 99] (by decide) (by decide) (by decide)
     (by decide)⟩

/-- Claim C2: inserting a Notification with outcome 'Sucesso' sets the
parent reminder's status to 'Concluído' exactly once (every row with the
parent id is completed, every other row is untouched) in the same
atomic step as the insert; an outcome 'Falha' insert leaves every
reminder unchanged.  The last conjunct covers the POST /notificacoes
route: a successful create always completes the parent, because the
INSERT takes the schema default 'Sucesso'. -/
theorem c2_notificacao_sucesso_conclui (db : DBState) (n : Notificacao)
    (userId newId res : Nat) (lembrete_id : Option Int)
    (tipo_envio data_envio mensagem : Option String) (db2 : DBState)
    (hroute : criarNotificacao db userId lembrete_id tipo_envio data_envio mensagem newId
        = (.ok res, db2)) :
    (insertNotificacao db n).notificacoes = db.notificacoes ++ [n] ∧
    (n.status = .sucesso →
      (insertNotificacao db n).lembretes = db.lembretes.map
        (fun l => if l.id = n.lembrete_id then { l with status := .concluido } else l)) ∧
    (n.status = .falha → (insertNotificacao db n).lembretes = db.lembretes) ∧
    db2.lembretes = db.lembretes.map
      (fun l => if l.id = (lembrete_id.getD 0).toNat
        then { l with status := .concluido } else l) := by
  refine ⟨?_, ?_, ?_, ?_⟩
  · unfold insertNotificacao trgAfterNotificacaoInsert
    split_ifs <;> rfl
  · intro h
    unfold insertNotificacao trgAfterNotificacaoInsert
    rw [if_pos h]
  · intro h
    unfold insertNotificacao trgAfterNotificacaoInsert
    rw [if_neg (by rw [h]; exact fun hc => StatusNotificacao.noConfusion hc)]
  · unfold criarNotificacao at hroute
    split at hroute
    · simp at hroute
    · split at hroute
      · simp at hroute
      · rw [Prod.mk.injEq] at hroute
        rw [← hroute.2]
        unfold insertNotificacao trgAfterNotificacaoInsert
        rw [if_pos rfl]

/-- Witness for C2: creating a notification for reminder 1 of `c1Db`
succeeds and the resulting state has reminder 1 Concluído. -/
theorem c2_notificacao_sucesso_conclui_witness :
    criarNotificacao c1Db 12 (some 1) (some "WhatsApp")
      (some "2024-12-25T10:00:00") none 5 = (.ok 5, c2Db2) ∧
    c2Db2.lembretes = c1Db.lembretes.map
      (fun l => if l.id = ((some (1 : Int)).getD 0).toNat
        then { l with status := .concluido } else l) :=
  ⟨rfl,
   (c2_notificacao_sucesso_conclui c1Db c2Notificacao 12 5 5 (some 1)
     (some "WhatsApp") (some "2024-12-25T10:00:00") none c2Db2 rfl).2.2.2⟩

/-- Claim C3 (code bug): a create body with `recorrente` true and no
`frequencia`, and likewise a Diária body with no `hora`, pass the POST
/lembretes validation — the whole recurrence block is guarded by
`if (recorrente && frequencia)` and Diária has no switch case — and the
reminder row is persisted with `recorrente` true and `frequencia` NULL,
against the claim (and the route's own swagger documentation, which
declares `frequencia` required when `recorrente` is true and `hora`
required for Diária). -/
theorem c3_recorrente_sem_frequencia_persistido :
    validarCriacao c3Body = none ∧
    validarCriacao c3DiariaBody = none ∧
    criarLembrete ⟨[], [], [], []⟩ 12 c3Body 43 =
      (.ok 43,
       ⟨[⟨43, "Academia", none, "Normal", none, true, none, .ativo, 12,
          none, none, none, none, none⟩], [], [], []⟩) :=
  ⟨rfl, rfl, rfl⟩

/-- Counterexample for C4: the body `c4Body` (Mensal with dia = 40) is
rejected by the Create validation (day-of-month range check) but
accepted by the Update validation, so "Update rejects iff Create
rejects" is false. -/
theorem c4_counterexample :
    validarCriacao c4Body = some ⟨400, "Dia deve estar entre 1 e 31"⟩ ∧
    validarAtualizacao c4Body = none :=
  ⟨by decide, by decide⟩

/-- Claim C4 as amended: Update's validation is strictly weaker than
Create's — every request body the Update validation rejects is also
rejected by the Create validation (the converse fails, see the
counterexample: Update omits the required-field, enum-membership and
day-range checks). -/
theorem c4_update_valida_menos (b : LembreteBody)
    (h : (validarAtualizacao b).isSome = true) :
    (validarCriacao b).isSome = true := by
  unfold validarAtualizacao at h
  unfold validarCriacao
  by_cases hg : (truthyB b.recorrente && truthyS b.frequencia) = true
  case neg =>
    rw [if_neg hg] at h
    simp at h
  case pos =>
    rw [if_pos hg] at h
    by_cases h1 : (!(truthyS b.titulo) || !(truthyS b.tipo)) = true
    · rw [if_pos h1]; rfl
    · rw [if_neg h1]
      by_cases h2 : (!(tiposValidos.contains (b.tipo.getD ""))) = true
      · rw [if_pos h2]; rfl
      · rw [if_neg h2, if_pos hg]
        by_cases hM : b.frequencia.getD "" = "Mensal"
        · rw [if_pos hM] at h
          rw [if_neg (by simp [hM, frequenciasValidas]), if_pos hM]
          by_cases hc : (!(truthyI b.dia) || !(truthyHora b.hora)) = true
          · rw [if_pos hc]; rfl
          · rw [if_neg hc] at h; simp at h
        · rw [if_neg hM] at h
          by_cases hS : b.frequencia.getD "" = "Semanal"
          · rw [if_pos hS] at h
            rw [if_neg (by simp [hS, frequenciasValidas]), if_neg hM, if_pos hS]
            by_cases hc : (!(truthyS b.dia_semana) || !(truthyHora b.hora)) = true
            · rw [if_pos hc]; rfl
            · rw [if_neg hc] at h; simp at h
          · rw [if_neg hS] at h
            by_cases hA : b.frequencia.getD "" = "Anual"
            · rw [if_pos hA] at h
              rw [if_neg (by simp [hA, frequenciasValidas]), if_neg hM, if_neg hS,
                if_pos hA]
              by_cases hc : (!(truthyI b.dia) || !(truthyS b.mes)
                  || !(truthyHora b.hora)) = true
              · rw [if_pos hc]; rfl
              · rw [if_neg hc] at h; simp at h
            · rw [if_neg hA] at h
              simp at h

/-- Witness for C4 (amended): the Mensal body with `dia` missing is
rejected by Update, hence also by Create. -/
theorem c4_update_valida_menos_witness :
    (validarAtualizacao c4MissingBody).isSome = true ∧
    (validarCriacao c4MissingBody).isSome = true :=
  ⟨by decide, c4_update_valida_menos c4MissingBody (by decide)⟩

/-- Counterexample for C5: at Sunday 2025-01-05 11:00, the Monthly
reminder `c5Lembrete` (day 20, 10:00) has a stored time-of-day that has
already passed today, yet the resolved next occurrence is 2025-01-20 —
the current month, not the next month as the claim states. -/
theorem c5_counterexample :
    c5Lembrete.dia = some 20 ∧ (10 * 60 + 0 : Nat) < c5Now.minute ∧
    proximaExecucao c5Now c5Lembrete = some (some ⟨2025, 0, 20, 600⟩) ∧
    (⟨2025, 0, 20, 600⟩ : JSDate).month = c5Now.month ∧
    (⟨2025, 0, 20, 600⟩ : JSDate).year = c5Now.year :=
  ⟨rfl, by decide, by decide, rfl, rfl⟩

/-- Claim C5 as amended: for every Monthly recurring reminder with
day-of-month between 1 and 28, if the occurrence on that day of the
current month at the stored time has already passed, the resolved next
occurrence is the same day-of-month in the next month at the stored
time. -/
theorem c5_mensal_proximo_mes (now : JSDate) (l : Lembrete) (hh mm : Nat) (dia : Int)
    (hmlt : now.month < 12)
    (hrec : l.recorrente = true) (hhora : l.hora = some (hh, mm))
    (hfreq : l.frequencia = some "Mensal") (hdia : l.dia = some dia)
    (hd1 : 1 ≤ dia) (hd28 : dia ≤ 28)
    (hpast : (mkDate now.year now.month dia (hh * 60 + mm)).toMin < now.toMin) :
    proximaExecucao now l =
      some (some ⟨if now.month = 11 then now.year + 1 else now.year,
                  (now.month + 1) % 12, dia.toNat, hh * 60 + mm⟩) := by
  unfold proximaExecucao
  rw [hrec, hhora, hfreq, hdia]
  simp only [Option.isSome_some, Bool.and_true, if_true, reduceIte, reduceCtorEq,
    String.reduceEq, Option.getD_some]
  have hcast : dia = ((dia.toNat : Nat) : Int) := by omega
  have hself : mkDate now.year now.month dia (hh * 60 + mm)
      = ⟨now.year, now.month, dia.toNat, hh * 60 + mm⟩ := by
    rw [hcast]
    exact mkDate_eq_self _ _ _ _ hmlt (by omega) (by
      have := daysInMonth_ge now.year now.month; omega)
  rw [if_pos hpast, hself]
  have hnext : mkDate now.year (now.month + 1) ((dia.toNat : Nat) : Int) (hh * 60 + mm)
      = ⟨if now.month = 11 then now.year + 1 else now.year,
         (now.month + 1) % 12, dia.toNat, hh * 60 + mm⟩ :=
    mkDate_next_month now.year now.month dia.toNat (hh * 60 + mm) hmlt (by omega)
      (by omega)
  exact congrArg (fun q => some (some q)) hnext

/-- Witness for C5 (amended): at 2025-01-05 11:00, the Monthly reminder
on day 3 at 10:00 (already past this month) resolves to 2025-02-03
10:00. -/
theorem c5_mensal_proximo_mes_witness :
    (mkDate c5Now.year c5Now.month 3 (10 * 60 + 0)).toMin < c5Now.toMin ∧
    proximaExecucao c5Now c5PastLembrete =
      some (some ⟨if c5Now.month = 11 then c5Now.year + 1 else c5Now.year,
                  (c5Now.month + 1) % 12, (3 : Int).toNat, 10 * 60 + 0⟩) :=
  ⟨by decide,
   c5_mensal_proximo_mes c5Now c5PastLembrete 10 0 3 (by decide) rfl rfl rfl rfl
     (by decide) (by decide) (by decide)⟩

/-- Claim C6: for every Weekly recurring reminder whose stored
`dia_semana` is one of the seven weekday names, the resolved next
occurrence exists and its weekday (`getDay`) equals the stored
weekday's number. -/
theorem c6_semanal_dia_da_semana (now : JSDate) (l : Lembrete) (hh mm t : Nat)
    (ds : String) (hv : ValidDate now)
    (hrec : l.recorrente = true) (hhora : l.hora = some (hh, mm))
    (hfreq : l.frequencia = some "Semanal") (hds : l.dia_semana = some ds)
    (ht : diasSemana ds = some t) :
    (proximaExecucao now l).map (Option.map JSDate.getDay) = some (some t) := by
  unfold proximaExecucao
  rw [hrec, hhora, hfreq, hds]
  simp only [Option.isSome_some, Bool.and_true, if_true, reduceIte, String.reduceEq,
    Option.some_bind]
  rw [ht]
  have hvs : ValidDate { now with minute := hh * 60 + mm } := hv
  have ht7 : t < 7 := diasSemana_lt ds t ht
  obtain ⟨q, hq, hqd⟩ := semanalLoop_reaches 7
    { now with minute := hh * 60 + mm } t ht7 hvs (Nat.mod_lt _ (by norm_num))
  rw [hq]
  simp [hqd]

/-- Witness for C6: at Sunday 2025-01-05 11:00 the weekly Wednesday
("Quarta") reminder resolves to a Wednesday (weekday 3). -/
theorem c6_semanal_dia_da_semana_witness :
    ValidDate c5Now ∧ diasSemana "Quarta" = some 3 ∧
    (proximaExecucao c5Now c6Lembrete).map (Option.map JSDate.getDay)
      = some (some 3) :=
  ⟨by decide, by decide,
   c6_semanal_dia_da_semana c5Now c6Lembrete 14 30 3 "Quarta" (by decide) rfl rfl rfl
     rfl (by decide)⟩

/-- Claim C7: for every Weekly recurring reminder whose stored weekday
equals today's weekday and whose stored time-of-day has already passed
today, the resolver returns today's instant — which lies in the past —
and does not roll forward to next week. -/
theorem c7_semanal_hoje_passado (now : JSDate) (l : Lembrete) (hh mm : Nat)
    (ds : String)
    (hrec : l.recorrente = true) (hhora : l.hora = some (hh, mm))
    (hfreq : l.frequencia = some "Semanal") (hds : l.dia_semana = some ds)
    (htarget : diasSemana ds = some now.getDay)
    (hpast : hh * 60 + mm < now.minute) :
    proximaExecucao now l = some (some ⟨now.year, now.month, now.day, hh * 60 + mm⟩) ∧
    (⟨now.year, now.month, now.day, hh * 60 + mm⟩ : JSDate).toMin < now.toMin := by
  constructor
  · unfold proximaExecucao
    rw [hrec, hhora, hfreq, hds]
    simp only [Option.isSome_some, Bool.and_true, if_true, Option.some_bind,
      reduceIte, reduceCtorEq, String.reduceEq]
    rw [htarget]
    have hstart : (⟨now.year, now.month, now.day, hh * 60 + mm⟩ : JSDate).getDay
        = now.getDay := rfl
    simp [semanalLoop, hstart]
  · unfold JSDate.toMin
    exact Nat.add_lt_add_left hpast _

/-- Witness for C7: Sunday 2025-01-05 at 11:00 with the weekly Sunday
reminder at 10:00 — the resolver returns today 10:00, a past instant. -/
theorem c7_semanal_hoje_passado_witness :
    diasSemana "Domingo" = some (JSDate.getDay ⟨2025, 0, 5, 660⟩) ∧
    proximaExecucao ⟨2025, 0, 5, 660⟩ c7Lembrete
      = some (some ⟨2025, 0, 5, 10 * 60 + 0⟩) ∧
    (⟨2025, 0, 5, 10 * 60 + 0⟩ : JSDate).toMin < (⟨2025, 0, 5, 660⟩ : JSDate).toMin :=
  ⟨by decide,
   (c7_semanal_hoje_passado ⟨2025, 0, 5, 660⟩ c7Lembrete 10 0 "Domingo" rfl rfl rfl rfl
     (by decide) (by decide)).1,
   (c7_semanal_hoje_passado ⟨2025, 0, 5, 660⟩ c7Lembrete 10 0 "Domingo" rfl rfl rfl rfl
     (by decide) (by decide)).2⟩

/-- Claim C8: a non-recurring reminder resolves to its stored
`data_hora` verbatim — including `null` when there is none, and past
instants unchanged — and the result does not depend on the current
time, so repeated resolution yields the same value. -/
theorem c8_nao_recorrente_verbatim (now now2 : JSDate) (l : Lembrete)
    (hrec : l.recorrente = false) :
    proximaExecucao now l = some l.data_hora ∧
    proximaExecucao now l = proximaExecucao now2 l := by
  have h : ∀ n : JSDate, proximaExecucao n l = some l.data_hora := by
    intro n
    unfold proximaExecucao
    rw [hrec]
    simp only [Bool.false_and, Bool.false_eq_true, if_false]
    cases l.data_hora <;> rfl
  exact ⟨h now, (h now).trans (h now2).symm⟩

/-- Witness for C8: the one-shot reminder with stored (past) instant
2024-12-25 10:00 resolves to exactly that instant at two different
current times. -/
theorem c8_nao_recorrente_verbatim_witness :
    proximaExecucao ⟨2025, 0, 5, 660⟩ c8Lembrete = some c8Lembrete.data_hora ∧
    proximaExecucao ⟨2025, 0, 5, 660⟩ c8Lembrete
      = proximaExecucao ⟨2026, 3, 1, 0⟩ c8Lembrete :=
  c8_nao_recorrente_verbatim ⟨2025, 0, 5, 660⟩ ⟨2026, 3, 1, 0⟩ c8Lembrete rfl

/-- Counterexample for C9: the verify route hands the gateway the input
numbers with non-digits stripped and nothing else — "984193411" is
forwarded without the country code 55 the spec-modelled normalization
would prepend — and the send service forwards its phone argument
verbatim, without even stripping. -/
theorem c9_counterexample :
    numerosLimpos ["984193411"] = ["984193411"] ∧
    numerosLimpos ["984193411"] ≠ [normalizarSegundoSpec "984193411"] ∧
    normalizarSegundoSpec "984193411" = "55984193411" ∧
    enviarMensagemPhone "(63) 98419-3411" = "(63) 98419-3411" :=
  ⟨rfl, by decide, by decide, rfl⟩

/-- Claim C9 as amended: before the verify call the route normalizes
each input number by stripping all non-digit characters, and only that:
the list sent to the gateway is exactly the element-wise stripping, the
stripped value keeps the digits in order, and contains digits only.  No
country-code prefix is added anywhere. -/
theorem c9_somente_remocao_nao_digitos (numeros : List String) (s : String) :
    numerosLimpos numeros = numeros.map limparNumero ∧
    (limparNumero s).data = s.data.filter (fun c => c.isDigit) ∧
    (limparNumero s).data.all (fun c => c.isDigit) = true := by
  have hfold : ∀ l : List Char,
      List.foldr (fun c acc => if c.isDigit then c :: acc else acc) [] l
        = l.filter (fun c => c.isDigit) := by
    intro l
    induction l with
    | nil => rfl
    | cons c cs ih => by_cases h : c.isDigit = true <;> simp [List.filter_cons, h, ih]
  have hdata : (limparNumero s).data = s.data.filter (fun c => c.isDigit) := by
    show List.foldr (fun c acc => if c.isDigit then c :: acc else acc) [] s.data = _
    exact hfold s.data
  refine ⟨rfl, hdata, ?_⟩
  rw [hdata]
  simp [List.all_eq_true]

/-- Claim C10: the Semanal day-advancing loop terminates exactly under
the precondition that the stored `dia_semana` is a weekday name.  For
any other stored value, the loop condition never holds — for every
fuel the fuelled loop fails, so the JS `while` never exits and GET
/lembretes produces no response for such a row — while for every valid
weekday name and in-range start date the loop finishes within 7 steps.
Such rows are reachable: the PUT validation accepts the body
`c10Body`, whose `dia_semana` is "Funday". -/
theorem c10_semanal_invalido_loop_infinito (now : JSDate) (l : Lembrete)
    (hh mm : Nat) (ds : String) (fuel : Nat) (p : JSDate) (ds2 : String) (t : Nat)
    (q : JSDate)
    (hrec : l.recorrente = true) (hhora : l.hora = some (hh, mm))
    (hfreq : l.frequencia = some "Semanal") (hds : l.dia_semana = some ds)
    (hbad : diasSemana ds = none)
    (hok : diasSemana ds2 = some t) (hq : ValidDate q) :
    semanalLoop fuel (diasSemana ds) p = none ∧
    proximaExecucao now l = none ∧
    (semanalLoop 7 (some t) q).isSome = true ∧
    validarAtualizacao c10Body = none := by
  refine ⟨?_, ?_, ?_, by decide⟩
  · rw [hbad]
    exact semanalLoop_none fuel p
  · unfold proximaExecucao
    rw [hrec, hhora, hfreq, hds]
    simp only [Option.isSome_some, Bool.and_true, if_true, reduceIte, String.reduceEq,
      Option.some_bind]
    rw [hbad, semanalLoop_none]
    rfl
  · obtain ⟨q2, hq2, _⟩ := semanalLoop_reaches 7 q t (diasSemana_lt ds2 t hok) hq
      (Nat.mod_lt _ (by norm_num))
    rw [hq2]
    rfl

/-- Witness for C10: with the stored value "Funday" the loop returns
nothing for fuel 9 (and the resolver yields no value), while "Segunda"
finishes within 7 steps from Sunday 2025-01-05. -/
theorem c10_semanal_invalido_loop_infinito_witness :
    diasSemana "Funday" = none ∧
    semanalLoop 9 (diasSemana "Funday") ⟨2025, 0, 5, 600⟩ = none ∧
    proximaExecucao ⟨2025, 0, 5, 660⟩ c10Lembrete = none ∧
    (semanalLoop 7 (some 1) ⟨2025, 0, 5, 600⟩).isSome = true ∧
    validarAtualizacao c10Body = none := by
  have h := c10_semanal_invalido_loop_infinito ⟨2025, 0, 5, 660⟩ c10Lembrete 14 30
    "Funday" 9 ⟨2025, 0, 5, 600⟩ "Segunda" 1 ⟨2025, 0, 5, 600⟩ rfl rfl rfl rfl
    (by decide) (by decide) (by decide)
  exact ⟨by decide, h.1, h.2.1, h.2.2.1, h.2.2.2⟩
